import Mathlib

/-!
Verification of the oi-pulse-watcher snapshot/alert pipeline.

This file gives a shallow embedding, over `ℤ` timestamps and `ℚ` numeric
values, of the core logic of the repository:

* the Snapshot Aggregator of `supabase/functions/auto-collect-cvd/index.ts`
  (`processCoin`, `safePercentChange`, `alignToInterval`, `generateBuckets`,
  `fetchCvdDeltas`, `fetchWithRetry`, `determineAlert`),
* the whale-signal detector of `src/utils/whaleDetection.ts`
  (`detectWhaleSignal`, `calculateConfidence`),
* the CVD-history read endpoint of `supabase/functions/get-cvd-history/index.ts`.

JavaScript numbers are embedded as `Option ℚ` (`JsNum`): `none` stands for a
non-finite value (`NaN`); every comparison against `none` is `false`, and
`Math.max` propagates `none`, matching JS `NaN` semantics.  Side-effecting
parts (HTTP fetches, the database, `Math.random`, timers) are passed in as
explicit oracles/state so that the control flow of the source is preserved.
-/

namespace OiPulse

/-! ### Constants from `auto-collect-cvd/index.ts` and `get-cvd-history/index.ts` -/

def SNAP_INTERVAL_MS : ℤ := 5 * 60 * 1000

def DEFAULT_BACKFILL_INTERVALS : ℤ := 24

def MAX_TRADES_PER_REQUEST : Nat := 1000

/-- `EPSILON = 1e-8`, embedded exactly as the rational `10⁻⁸`. -/
def EPSILON : ℚ := 1 / 100000000

def MAX_LIMIT : ℤ := 3000

/-- The alert cooldown window: `15 * 60 * 1000` milliseconds. -/
def COOLDOWN_MS : ℤ := 15 * 60 * 1000

/-! ### JS number embedding -/

/-- A JavaScript number: `some q` for a finite value, `none` for `NaN`
(the only non-finite values this pipeline produces come from `parseFloat` /
`Number` of malformed data, which the source guards with `Number.isFinite`). -/
abbrev JsNum := Option ℚ

/-- JS `Math.abs` on a finite value, written so that it evaluates by kernel
reduction (`decide`); equal to `|q|` (see `qabs_eq_abs`). -/
def qabs (q : ℚ) : ℚ :=
  if q < 0 then -q else q

theorem qabs_eq_abs (q : ℚ) : qabs q = |q| := by
  by_cases h : q < 0
  · simp [qabs, h, abs_of_neg h]
  · simp [qabs, h, abs_of_nonneg (not_lt.mp h)]

/-- JS `a >= b`: `false` whenever either side is non-finite. -/
def jge (a b : JsNum) : Bool :=
  match a, b with
  | some x, some y => decide (y ≤ x)
  | _, _ => false

/-- JS `a < b`: `false` whenever either side is non-finite. -/
def jlt (a b : JsNum) : Bool :=
  match a, b with
  | some x, some y => decide (x < y)
  | _, _ => false

/-- JS `Math.max(a, b)`: `NaN` propagates. -/
def jmax (a b : JsNum) : JsNum :=
  match a, b with
  | some x, some y => some (max x y)
  | _, _ => none

/-- JS multiplication by a finite literal: `NaN` propagates. -/
def jmul (a : JsNum) (c : ℚ) : JsNum :=
  a.map (fun x => x * c)

/-- JS `Math.max(...xs)` over a (non-empty, here) spread array.
`Math.max()` of the empty spread is `-Infinity`, which we also map to `none`;
the source only applies this to windows of at least 12 entries. -/
def jmaxList (l : List JsNum) : JsNum :=
  match l with
  | [] => none
  | x :: xs => xs.foldl jmax x

/-! ### `safePercentChange` (auto-collect-cvd/index.ts lines 82-87)

```js
const safePercentChange = (current, previous) => {
  if (!Number.isFinite(current) || !Number.isFinite(previous) || Math.abs(previous) <= EPSILON) {
    return 0;
  }
  return ((current - previous) / Math.abs(previous)) * 100;
};
```
-/

def safePercentChange (current previous : JsNum) : ℚ :=
  match current, previous with
  | some c, some p =>
    if qabs p ≤ EPSILON then 0
    else ((c - p) / qabs p) * 100
  | _, _ => 0

/-- C4: for every finite `x`, `safePercentChange x 0 = 0`; the result is `0`
for every reference value with absolute value below the `EPSILON = 1e-8`
floor, and `0` whenever either argument is non-finite. -/
theorem safePercentChange_zero_guard (x : ℚ) (e : ℚ) (he : qabs e < EPSILON) :
    safePercentChange (some x) (some 0) = 0 ∧
    safePercentChange (some x) (some e) = 0 ∧
    (∀ y : JsNum, safePercentChange none y = 0) ∧
    (∀ y : JsNum, safePercentChange y none = 0) := by
  refine ⟨?_, ?_, ?_, ?_⟩
  · simp [safePercentChange, qabs, EPSILON]
  · simp [safePercentChange, le_of_lt he]
  · intro y; cases y <;> simp [safePercentChange]
  · intro y; cases y <;> simp [safePercentChange]

/-- Witness for C4 at `x = 7`, `e = 10⁻⁹` (which is below the `1e-8` floor). -/
theorem safePercentChange_zero_guard_witness :
    qabs (1 / 1000000000 : ℚ) < EPSILON ∧
      (safePercentChange (some 7) (some 0) = 0 ∧
        safePercentChange (some 7) (some (1 / 1000000000)) = 0 ∧
        (∀ y : JsNum, safePercentChange none y = 0) ∧
        (∀ y : JsNum, safePercentChange y none = 0)) :=
  ⟨by norm_num [qabs, EPSILON],
    safePercentChange_zero_guard 7 (1 / 1000000000) (by norm_num [qabs, EPSILON])⟩

/-! ### Bucket alignment and generation (auto-collect-cvd/index.ts lines 71-80)

```js
const alignToInterval = (timestamp) => Math.floor(timestamp / SNAP_INTERVAL_MS) * SNAP_INTERVAL_MS;
const generateBuckets = (start, end) => { for (let ts = start; ts <= end; ts += SNAP_INTERVAL_MS) buckets.push(ts); }
```
`Math.floor` of the quotient is integer floor division (`Int.fdiv`). -/

def alignToInterval (timestamp : ℤ) : ℤ :=
  Int.fdiv timestamp SNAP_INTERVAL_MS * SNAP_INTERVAL_MS

/-- The `for (let ts = start; ts <= end; ts += SNAP_INTERVAL_MS)` loop:
the arithmetic progression `start, start + I, ...` of all points `≤ end`. -/
def generateBuckets (start endB : ℤ) : List ℤ :=
  if start ≤ endB then
    (List.range (((endB - start).fdiv SNAP_INTERVAL_MS).toNat + 1)).map
      (fun k => start + SNAP_INTERVAL_MS * (k : ℤ))
  else []

/-! ### The snapshot-building loop of `processCoin` (auto-collect-cvd/index.ts lines 421-466)

State entering the loop: `runningCvd = toNumber(latestRow.cvd)` (or `0` with no
previous row), and `lastPrice`/`lastOiContracts`/`lastOiValue` from the latest
persisted row (`none` = `NaN`, i.e. no usable previous value).  The three
fetched series are the maps `pm` (mark price per bucket), `om` (open interest
per bucket: `contracts × value`, each possibly `null`) and `dm` (CVD trade
delta per bucket; a missing bucket means delta `0`, the `?? 0`). -/

structure SnapshotRow where
  symbol : String
  timestamp : ℤ
  price : ℚ
  cvd : ℚ
  open_interest : Option ℚ
  open_interest_value : Option ℚ
deriving DecidableEq, Repr

/-- One pass of the `for (const bucketStart of buckets)` loop body.  A bucket
whose price cannot be resolved (no kline and no carried-forward last price) is
skipped, but `runningCvd` still advances by that bucket's delta
(`runningCvd = nextCvd; continue;`). -/
def snapLoop (sym : String) (pm : ℤ → Option ℚ) (om : ℤ → Option (Option ℚ × Option ℚ))
    (dm : ℤ → Option ℚ) :
    List ℤ → ℚ → Option ℚ → Option ℚ → Option ℚ → List SnapshotRow
  | [], _, _, _, _ => []
  | b :: bs, runningCvd, lastPrice, lastOi, lastOiv =>
    match (pm b).orElse fun _ => lastPrice with
    | none =>
      snapLoop sym pm om dm bs (runningCvd + (dm b).getD 0) lastPrice lastOi lastOiv
    | some p =>
      { symbol := sym, timestamp := b, price := p,
        cvd := runningCvd + (dm b).getD 0,
        open_interest := ((om b).bind Prod.fst).orElse fun _ => lastOi,
        open_interest_value := ((om b).bind Prod.snd).orElse fun _ => lastOiv } ::
        snapLoop sym pm om dm bs (runningCvd + (dm b).getD 0) (some p)
          (((om b).bind Prod.fst).orElse fun _ => lastOi)
          (((om b).bind Prod.snd).orElse fun _ => lastOiv)

/-- C1: every snapshot row written by the aggregation loop has
`cvd = (previously persisted cvd) + (sum of the trade deltas of ALL buckets up
to and including its own, skipped ones included)`.  In particular a skipped
bucket's delta is carried into the next written snapshot rather than lost, and
when the written row's bucket immediately follows the previous written row's
bucket its `cvd` is the previous row's `cvd` plus its own bucket delta. -/
theorem snapLoop_cvd_conservation (sym : String) (pm : ℤ → Option ℚ)
    (om : ℤ → Option (Option ℚ × Option ℚ)) (dm : ℤ → Option ℚ) (bs : List ℤ)
    (c₀ : ℚ) (lp lo lov : Option ℚ) (r : SnapshotRow)
    (hr : r ∈ snapLoop sym pm om dm bs c₀ lp lo lov) :
    ∃ pre post, bs = pre ++ r.timestamp :: post ∧
      r.cvd = c₀ + ((pre.map fun b => (dm b).getD 0).sum + (dm r.timestamp).getD 0) := by
  induction bs generalizing c₀ lp lo lov with
  | nil => simp [snapLoop] at hr
  | cons b bs ih =>
    rcases hp : (pm b).orElse fun _ => lp with _ | p
    · rw [snapLoop, hp] at hr
      obtain ⟨pre, post, heq, hcvd⟩ := ih _ _ _ _ hr
      refine ⟨b :: pre, post, by rw [heq]; rfl, ?_⟩
      simp only [List.map_cons, List.sum_cons]
      rw [hcvd]; ring
    · rw [snapLoop, hp] at hr
      rcases List.mem_cons.mp hr with hhead | htail
      · refine ⟨[], bs, ?_, ?_⟩
        · simp [hhead]
        · rw [hhead]; simp
      · obtain ⟨pre, post, heq, hcvd⟩ := ih _ _ _ _ htail
        refine ⟨b :: pre, post, by rw [heq]; rfl, ?_⟩
        simp only [List.map_cons, List.sum_cons]
        rw [hcvd]; ring

/-- Concrete price map for the C1 witness: only bucket `600000` has a kline. -/
def c1pm : ℤ → Option ℚ :=
  fun b => if b = 600000 then some 10 else none

/-- Concrete trade-delta map for the C1 witness. -/
def c1dm : ℤ → Option ℚ :=
  fun b =>
    if b = 0 then some 1 else if b = 300000 then some 2 else
      if b = 600000 then some 5 else none

/-- The single row the C1 witness run writes. -/
def c1row : SnapshotRow :=
  ⟨"BTCUSDT", 600000, 10, 108, none, none⟩

/-- Witness for C1: previous persisted cvd `100`, three buckets with deltas
`1`, `2`, `5`; the first two buckets have no resolvable price (no kline, no
previous price) and are skipped, yet the single written snapshot (bucket
`600000`) has `cvd = 100 + (1 + 2) + 5 = 108` — the skipped deltas survive. -/
theorem snapLoop_cvd_conservation_witness :
    c1row ∈ snapLoop "BTCUSDT" c1pm (fun _ => none) c1dm [0, 300000, 600000] 100
        none none none ∧
    (∃ pre post, ([0, 300000, 600000] : List ℤ) = pre ++ c1row.timestamp :: post ∧
      c1row.cvd = 100 +
        ((pre.map fun b => (c1dm b).getD 0).sum + (c1dm c1row.timestamp).getD 0)) := by
  have h : c1row ∈ snapLoop "BTCUSDT" c1pm (fun _ => none) c1dm [0, 300000, 600000] 100
      none none none := by
    norm_num [snapLoop, c1pm, c1dm, c1row]
  exact ⟨h, snapLoop_cvd_conservation "BTCUSDT" c1pm (fun _ => none) c1dm _ _ _ _ _ _ h⟩

/-! ### Start-bucket computation and the no-op path (auto-collect-cvd/index.ts lines 392-410)

```js
const lastTimestamp = latestRow ? Number(latestRow.timestamp) : null;
let startBucket = lastTimestamp !== null && Number.isFinite(lastTimestamp)
  ? alignToInterval(lastTimestamp) + SNAP_INTERVAL_MS
  : currentBucket - SNAP_INTERVAL_MS * (DEFAULT_BACKFILL_INTERVALS - 1);
if (startBucket > currentBucket) return;     // snapshots already up to date
```
`lastTimestamp = none` covers both "no previous row" and a non-finite stored
timestamp.  (The later `if (!Number.isFinite(startBucket))` repair is
unreachable here since both inputs are finite.) -/

def computeStartBucket (lastTimestamp : Option ℤ) (currentBucket : ℤ) : ℤ :=
  match lastTimestamp with
  | some t => alignToInterval t + SNAP_INTERVAL_MS
  | none => currentBucket - SNAP_INTERVAL_MS * (DEFAULT_BACKFILL_INTERVALS - 1)

/-- The bucket range a `processCoin` run will aggregate, or `none` when the
run returns early because the snapshots are already up to date. -/
def planBuckets (lastTimestamp : Option ℤ) (currentBucket : ℤ) : Option (List ℤ) :=
  let startBucket := computeStartBucket lastTimestamp currentBucket
  if currentBucket < startBucket then none
  else some (generateBuckets startBucket currentBucket)

/-! ### The snapshot store and `upsert(..., { onConflict: 'symbol,timestamp' })`

The `cvd_data` table has a unique key on `(symbol, timestamp)` (the upsert's
conflict target), so it is modelled as a partial map from that key to the row;
an upsert overwrites the keyed entry. -/

/-- The `(symbol, timestamp)` conflict key. -/
abbrev RowKey := String × ℤ

/-- The `cvd_data` table, keyed by its unique `(symbol, timestamp)` index. -/
abbrev SnapStore := RowKey → Option SnapshotRow

def rowKey (r : SnapshotRow) : RowKey :=
  (r.symbol, r.timestamp)

/-- Upsert of a single row: overwrite the entry at its conflict key. -/
def upsertRow (st : SnapStore) (r : SnapshotRow) : SnapStore :=
  fun k => if k = rowKey r then some r else st k

/-- `supabase.from('cvd_data').upsert(rowsToUpsert, { onConflict: 'symbol,timestamp' })`:
row-by-row upsert, later rows winning on key collisions. -/
def upsertRows (st : SnapStore) (rows : List SnapshotRow) : SnapStore :=
  rows.foldl upsertRow st

/-- The row a batch leaves at key `k`: the last row of the batch with that
key, if any. -/
def lastWithKey : List SnapshotRow → RowKey → Option SnapshotRow
  | [], _ => none
  | r :: rs, k =>
    match lastWithKey rs k with
    | some r' => some r'
    | none => if k = rowKey r then some r else none

theorem upsertRows_apply (rows : List SnapshotRow) (st : SnapStore) (k : RowKey) :
    upsertRows st rows k = ((lastWithKey rows k).map some).getD (st k) := by
  induction rows generalizing st with
  | nil => simp [upsertRows, lastWithKey]
  | cons r rs ih =>
    show upsertRows (upsertRow st r) rs k = _
    rw [ih]
    rcases h : lastWithKey rs k with _ | r'
    · simp only [lastWithKey, h]
      rcases hk : decide (k = rowKey r) with _ | _
      · simp_all [upsertRow]
      · simp_all [upsertRow]
    · simp [lastWithKey, h]

/-- C2: if the last stored bucket is the current bucket (no new upstream
data), the next run computes a start bucket strictly past the current bucket
and plans no work (`planBuckets = none`, the logged no-op return), so no
previously stored snapshot changes; and the write primitive is idempotent:
re-upserting the same batch leaves the store pointwise unchanged. -/
theorem second_run_noop_and_upsert_idempotent (lastTs currentBucket : ℤ)
    (h : alignToInterval lastTs = currentBucket) :
    currentBucket < computeStartBucket (some lastTs) currentBucket ∧
    planBuckets (some lastTs) currentBucket = none ∧
    ∀ (st : SnapStore) (rows : List SnapshotRow),
      upsertRows (upsertRows st rows) rows = upsertRows st rows := by
  have hlt : currentBucket < computeStartBucket (some lastTs) currentBucket := by
    simp only [computeStartBucket, h, SNAP_INTERVAL_MS]
    omega
  refine ⟨hlt, ?_, ?_⟩
  · simp [planBuckets, hlt]
  · intro st rows
    funext k
    rw [upsertRows_apply, upsertRows_apply]
    rcases h' : lastWithKey rows k with _ | r'
    · simp
    · simp

/-- Witness for C2 with last stored bucket `300000 = currentBucket`. -/
theorem second_run_noop_witness :
    alignToInterval 300000 = 300000 ∧
      ((300000 : ℤ) < computeStartBucket (some 300000) 300000 ∧
        planBuckets (some 300000) 300000 = none ∧
        ∀ (st : SnapStore) (rows : List SnapshotRow),
          upsertRows (upsertRows st rows) rows = upsertRows st rows) :=
  ⟨by decide, second_run_noop_and_upsert_idempotent 300000 300000 (by decide)⟩

/-! ### Alert emission with cooldown (auto-collect-cvd/index.ts lines 490-521)

```js
if (alertResult.alertType !== 'NONE') {
  const fifteenMinutesAgo = Date.now() - 15 * 60 * 1000;
  const { data: recentAlert } = await supabase.from('alerts').select('id')
    .eq('symbol', symbol).eq('alert_type', alertResult.alertType)
    .gte('created_at', new Date(fifteenMinutesAgo).toISOString())
    .limit(1).maybeSingle();
  if (recentAlert) { return; }               // cooling down, skip
  await supabase.from('alerts').insert({ ... });
}
```
-/

/-- A row of the `alerts` table (the columns the insert writes; `details` is
an opaque JSON payload and irrelevant to the cooldown query). -/
structure AlertRow where
  symbol : String
  alert_type : String
  created_at : ℤ
  price : ℚ
  cvd : ℚ
  cvd_change_percent : ℚ
  price_change_percent : ℚ
  oi_change_percent : ℚ
deriving DecidableEq

/-- Result record of `determineAlert`. -/
structure AlertResult where
  alertType : String
  priceChangePercent : ℚ
  cvdChangePercent : ℚ
  oiChangePercent : ℚ
deriving DecidableEq

/-- The cooldown query predicate: an alert of the same `(symbol, alert_type)`
created within the last 15 minutes. -/
def recentAlertMatch (symbol alertType : String) (fifteenMinutesAgo : ℤ)
    (a : AlertRow) : Bool :=
  a.symbol = symbol && a.alert_type = alertType && decide (fifteenMinutesAgo ≤ a.created_at)

/-- The row `supabase.from('alerts').insert({...})` writes (`created_at`
defaults to the insertion time `now`). -/
def mkAlertRow (symbol : String) (res : AlertResult) (price cvd : ℚ) (now : ℤ) :
    AlertRow :=
  { symbol := symbol, alert_type := res.alertType, created_at := now,
    price := price, cvd := cvd,
    cvd_change_percent := res.cvdChangePercent,
    price_change_percent := res.priceChangePercent,
    oi_change_percent := res.oiChangePercent }

/-- The emission step after classification: suppress when the category is
`NONE` or a same-category alert for the symbol exists within the cooldown
window; otherwise insert one row (with `created_at = now`).  Returns the new
store and whether a row was inserted. -/
def emitAlertStep (store : List AlertRow) (symbol : String) (res : AlertResult)
    (price cvd : ℚ) (now : ℤ) : List AlertRow × Bool :=
  if res.alertType = "NONE" then (store, false)
  else
    let fifteenMinutesAgo := now - COOLDOWN_MS
    if store.any (recentAlertMatch symbol res.alertType fifteenMinutesAgo) then
      (store, false)
    else
      (store ++ [mkAlertRow symbol res price cvd now], true)

/-- How many persisted alerts of this `(symbol, category)` the store holds. -/
def countAlerts (store : List AlertRow) (symbol category : String) : ℕ :=
  (store.filter fun a => a.symbol = symbol && a.alert_type = category).length

/-- C3: two qualifying classification events of the same category for the same
symbol within 15 minutes of each other yield exactly one persisted alert row:
the first inserts, the second is suppressed by the cooldown query (store
unchanged, not an error). -/
theorem alert_cooldown_single_row (store : List AlertRow) (symbol : String)
    (res₁ res₂ : AlertResult) (p₁ c₁ p₂ c₂ : ℚ) (t₁ t₂ : ℤ)
    (hne : res₁.alertType ≠ "NONE")
    (hcat : res₂.alertType = res₁.alertType)
    (hfresh : ∀ a ∈ store, recentAlertMatch symbol res₁.alertType (t₁ - COOLDOWN_MS) a = false)
    (horder : t₁ ≤ t₂) (hwin : t₂ - t₁ ≤ COOLDOWN_MS) :
    (emitAlertStep store symbol res₁ p₁ c₁ t₁).2 = true ∧
    (emitAlertStep (emitAlertStep store symbol res₁ p₁ c₁ t₁).1 symbol res₂ p₂ c₂ t₂).2
      = false ∧
    (emitAlertStep (emitAlertStep store symbol res₁ p₁ c₁ t₁).1 symbol res₂ p₂ c₂ t₂).1
      = (emitAlertStep store symbol res₁ p₁ c₁ t₁).1 ∧
    countAlerts (emitAlertStep (emitAlertStep store symbol res₁ p₁ c₁ t₁).1
        symbol res₂ p₂ c₂ t₂).1 symbol res₁.alertType
      = countAlerts store symbol res₁.alertType + 1 := by
  have hany : store.any (recentAlertMatch symbol res₁.alertType (t₁ - COOLDOWN_MS)) = false := by
    rw [List.any_eq_false]
    intro a ha
    simp [hfresh a ha]
  have h1 : emitAlertStep store symbol res₁ p₁ c₁ t₁
      = (store ++ [mkAlertRow symbol res₁ p₁ c₁ t₁], true) := by
    rw [emitAlertStep, if_neg hne]
    simp only [hany]
    rfl
  have hmatch : recentAlertMatch symbol res₂.alertType (t₂ - COOLDOWN_MS)
      (mkAlertRow symbol res₁ p₁ c₁ t₁) = true := by
    simp only [recentAlertMatch, hcat, mkAlertRow]
    simp only [Bool.and_eq_true, decide_eq_true_eq]
    exact ⟨⟨by simp, by simp⟩, by omega⟩
  have hne₂ : res₂.alertType ≠ "NONE" := by rw [hcat]; exact hne
  have hany₂ : ((store ++ [mkAlertRow symbol res₁ p₁ c₁ t₁]).any
        (recentAlertMatch symbol res₂.alertType (t₂ - COOLDOWN_MS))) = true := by
    rw [List.any_eq_true]
    exact ⟨_, by simp, hmatch⟩
  have h2 : emitAlertStep (emitAlertStep store symbol res₁ p₁ c₁ t₁).1 symbol res₂ p₂ c₂ t₂
      = ((emitAlertStep store symbol res₁ p₁ c₁ t₁).1, false) := by
    rw [h1]
    rw [emitAlertStep, if_neg hne₂]
    simp only [hany₂]
    simp [h1]
  refine ⟨by rw [h1], by rw [h2], by rw [h2, h1], ?_⟩
  rw [h2, h1]
  simp only [countAlerts, List.filter_append, List.length_append]
  simp [mkAlertRow]

/-- Witness for C3: empty store, category `STRONG_BREAKOUT`, second event
10 minutes after the first. -/
theorem alert_cooldown_single_row_witness :
    (emitAlertStep [] "BTCUSDT" ⟨"STRONG_BREAKOUT", 3, 9, 6⟩ 103 1090 0).2 = true ∧
    (emitAlertStep (emitAlertStep [] "BTCUSDT" ⟨"STRONG_BREAKOUT", 3, 9, 6⟩ 103 1090 0).1
        "BTCUSDT" ⟨"STRONG_BREAKOUT", 3, 9, 6⟩ 103 1090 600000).2 = false ∧
    (emitAlertStep (emitAlertStep [] "BTCUSDT" ⟨"STRONG_BREAKOUT", 3, 9, 6⟩ 103 1090 0).1
        "BTCUSDT" ⟨"STRONG_BREAKOUT", 3, 9, 6⟩ 103 1090 600000).1
      = (emitAlertStep [] "BTCUSDT" ⟨"STRONG_BREAKOUT", 3, 9, 6⟩ 103 1090 0).1 ∧
    countAlerts (emitAlertStep (emitAlertStep [] "BTCUSDT" ⟨"STRONG_BREAKOUT", 3, 9, 6⟩
        103 1090 0).1 "BTCUSDT" ⟨"STRONG_BREAKOUT", 3, 9, 6⟩ 103 1090 600000).1
        "BTCUSDT" "STRONG_BREAKOUT"
      = countAlerts [] "BTCUSDT" "STRONG_BREAKOUT" + 1 :=
  alert_cooldown_single_row [] "BTCUSDT" ⟨"STRONG_BREAKOUT", 3, 9, 6⟩
    ⟨"STRONG_BREAKOUT", 3, 9, 6⟩ 103 1090 103 1090 0 600000
    (by decide) rfl (by simp) (by decide) (by decide)

/-! ### The alert classifier `determineAlert` (auto-collect-cvd/index.ts lines 532-615)

The classifier's input is the `cvd_data` query result for the symbol (up to 60
rows).  Each row is mapped through `toNumber` (`NaN` for `null`/malformed,
i.e. `none` here); `openInterest` prefers `open_interest_value` over
`open_interest`.  The rows are then sorted descending by timestamp
(`(a, b) => b.timestamp - a.timestamp`). -/

structure Entry where
  cvd : JsNum
  price : JsNum
  timestamp : ℤ
  openInterest : JsNum
deriving DecidableEq

/-- The descending-timestamp comparator `(a, b) => b.timestamp - a.timestamp`. -/
def entGe (a b : Entry) : Prop :=
  b.timestamp ≤ a.timestamp

instance : DecidableRel entGe :=
  fun a b => inferInstanceAs (Decidable (b.timestamp ≤ a.timestamp))

/-- The `NONE` result with zeroed percentages (early exits and the anomaly
guard return this). -/
def noAlert : AlertResult :=
  ⟨"NONE", 0, 0, 0⟩

/-- The pure core of `determineAlert`: from the queried rows to the
classification result.  Mirrors the source line by line: length guard, sort,
reference selection (first entry at index `> 0` with
`timestamp ≤ latest.timestamp - SNAP_INTERVAL_MS`, else the oldest entry),
safe percentage changes, anomaly guard (`|cvd%| > 150 or |price%| > 50`),
the four percentage rules in priority order, then the 12-snapshot
top-divergence check. -/
def determineAlertCore (recentData : List Entry) : AlertResult :=
  if recentData.length < 2 then noAlert
  else
    match List.insertionSort entGe recentData with
    | [] => noAlert
    | latestEntry :: restSorted =>
      let sorted := latestEntry :: restSorted
      let referenceTimestamp := latestEntry.timestamp - SNAP_INTERVAL_MS
      let referenceEntry? :=
        match restSorted.find? fun e => decide (e.timestamp ≤ referenceTimestamp) with
        | some e => some e
        | none => if 1 < recentData.length then sorted.getLast? else none
      match referenceEntry? with
      | none => noAlert
      | some referenceEntry =>
        let priceChangePercent := safePercentChange latestEntry.price referenceEntry.price
        let cvdChangePercent := safePercentChange latestEntry.cvd referenceEntry.cvd
        let oiChangePercent := safePercentChange latestEntry.openInterest referenceEntry.openInterest
        if 150 < qabs cvdChangePercent ∨ 50 < qabs priceChangePercent then noAlert
        else if 8 ≤ cvdChangePercent ∧ 3 ≤ priceChangePercent ∧ 3 ≤ oiChangePercent then
          ⟨"STRONG_BREAKOUT", priceChangePercent, cvdChangePercent, oiChangePercent⟩
        else if 12 ≤ cvdChangePercent ∧ qabs priceChangePercent ≤ 1 ∧ 0 ≤ oiChangePercent then
          ⟨"ACCUMULATION", priceChangePercent, cvdChangePercent, oiChangePercent⟩
        else if cvdChangePercent ≤ -4 ∧ 1 ≤ priceChangePercent ∧ oiChangePercent ≤ 0 then
          ⟨"DISTRIBUTION_WARN", priceChangePercent, cvdChangePercent, oiChangePercent⟩
        else if cvdChangePercent ≤ -6 ∧ priceChangePercent ≤ -2 ∧ 1 ≤ oiChangePercent then
          ⟨"SHORT_CONFIRM", priceChangePercent, cvdChangePercent, oiChangePercent⟩
        else if 12 ≤ sorted.length then
          let windowData := sorted.take 12
          let maxPrice := jmaxList (windowData.map Entry.price)
          let maxCvd := jmaxList (windowData.map Entry.cvd)
          if jge latestEntry.price (jmul maxPrice (999 / 1000)) &&
              jlt latestEntry.cvd (jmul maxCvd (92 / 100)) then
            ⟨"TOP_DIVERGENCE", priceChangePercent, cvdChangePercent, oiChangePercent⟩
          else
            ⟨"NONE", priceChangePercent, cvdChangePercent, oiChangePercent⟩
        else
          ⟨"NONE", priceChangePercent, cvdChangePercent, oiChangePercent⟩

/-- C5: with reference `{price:100, cvd:1000, oi:500}` one interval before
latest `{price:103, cvd:1090, oi:530}`, the classifier computes
`priceChange = 3%`, `cvdChange = 9%`, `oiChange = 6%` and returns
`STRONG_BREAKOUT` (first rule in the priority order; anomaly guard not
triggered). -/
theorem strong_breakout_scenario :
    determineAlertCore
      [⟨some 1090, some 103, 300000, some 530⟩, ⟨some 1000, some 100, 0, some 500⟩]
      = ⟨"STRONG_BREAKOUT", 3, 9, 6⟩ := by
  norm_num [determineAlertCore, entGe, noAlert, safePercentChange, qabs, EPSILON,
    SNAP_INTERVAL_MS, List.insertionSort, List.orderedInsert, List.find?]

/-- The 12-snapshot lookback window of the C6 scenario, parametrized by the
latest cvd value `c`: the latest price is `99.95 = 1999/20`, the reference
entry (one interval older) carries the same price/cvd/oi so all percentage
changes are `0` and no percentage rule or anomaly guard interferes; the
window maximum price is `100.0` (5th bucket from the latest) and the window
maximum cvd is `105` there. -/
def c6window (c : ℚ) : List Entry :=
  [⟨some c, some (1999 / 20), 3300000, some 500⟩,
   ⟨some c, some (1999 / 20), 3000000, some 500⟩,
   ⟨some 100, some 99, 2700000, some 500⟩,
   ⟨some 100, some 99, 2400000, some 500⟩,
   ⟨some 105, some 100, 2100000, some 500⟩,
   ⟨some 100, some 99, 1800000, some 500⟩,
   ⟨some 100, some 99, 1500000, some 500⟩,
   ⟨some 100, some 99, 1200000, some 500⟩,
   ⟨some 100, some 99, 900000, some 500⟩,
   ⟨some 100, some 99, 600000, some 500⟩,
   ⟨some 100, some 99, 300000, some 500⟩,
   ⟨some 100, some 99, 0, some 500⟩]

/-- C6 counterexample: with latest price `99.95 ≥ 99.9% of the window max
`100.0`` and latest cvd `92` against window-max cvd `105`, the code DOES emit
a top-divergence alert (since `92 < 0.92 × 105 = 96.6`), contradicting the
claim that cvd `92` produces no top-divergence. -/
theorem top_divergence_fires_at_92 :
    determineAlertCore (c6window 92) = ⟨"TOP_DIVERGENCE", 0, 0, 0⟩ := by
  norm_num [determineAlertCore, c6window, entGe, noAlert, safePercentChange, qabs,
    EPSILON, SNAP_INTERVAL_MS, List.insertionSort, List.orderedInsert, List.find?,
    jmaxList, jmax, jmul, jge, jlt, max_def]

/-- C6 (amended): the top-divergence rule fires exactly when the latest cvd is
STRICTLY below 92% of the window-maximum cvd.  In the spec's scenario the
exclusive boundary sits at cvd `96.6 = 0.92 × 105`, where no top-divergence is
produced; latest cvd `92` and `90` are both below the boundary and each
produces a top-divergence alert (no earlier percentage rule matches: all
percentage changes are `0`). -/
theorem top_divergence_boundary :
    determineAlertCore (c6window (483 / 5)) = ⟨"NONE", 0, 0, 0⟩ ∧
    determineAlertCore (c6window 92) = ⟨"TOP_DIVERGENCE", 0, 0, 0⟩ ∧
    determineAlertCore (c6window 90) = ⟨"TOP_DIVERGENCE", 0, 0, 0⟩ := by
  refine ⟨?_, ?_, ?_⟩ <;>
    norm_num [determineAlertCore, c6window, entGe, noAlert, safePercentChange, qabs,
      EPSILON, SNAP_INTERVAL_MS, List.insertionSort, List.orderedInsert, List.find?,
      jmaxList, jmax, jmul, jge, jlt, max_def]

/-! ### Trade pagination `fetchCvdDeltas` (auto-collect-cvd/index.ts lines 162-215)

The upstream `aggTrades` endpoint is modelled as the oracle
`feed : ℤ → Option (List Trade)`: the page returned for a request starting at
the given cursor (`none` = the fetch threw after its retries; the loop then
logs and breaks).  A non-array/empty payload and a page whose last trade has a
non-finite timestamp also break the loop.  The `while (cursor < endExclusive)`
loop is embedded with explicit fuel; `FetchOut.outOfFuel` marks runs that did
not complete within the given fuel, so a `done` result is a genuine loop exit.
`fetches` counts upstream requests. -/

/-- One element of the `aggTrades` payload: `T` (timestamp, `none` = a value
`Number` maps to non-finite), `q` (quantity via `parseFloat`), `m`
(buyer-is-maker). -/
structure Trade where
  T : Option ℤ
  q : Option ℚ
  m : Bool
deriving DecidableEq

inductive FetchOut where
  | done (deltas : ℤ → ℚ) (fetches : ℕ)
  | outOfFuel

/-- The per-trade body of the `for (const trade of trades)` loop: skip trades
with non-finite or out-of-range timestamps, track `maxTimestamp`, skip
non-finite quantities, and accumulate the signed quantity into the bucket of
`alignToInterval(T)`. -/
def processTrade (startTime endExclusive : ℤ) (acc : ℤ × (ℤ → ℚ)) (trade : Trade) :
    ℤ × (ℤ → ℚ) :=
  match trade.T with
  | none => acc
  | some t =>
    if t < startTime ∨ endExclusive ≤ t then acc
    else
      let maxTimestamp := max acc.1 t
      match trade.q with
      | none => (maxTimestamp, acc.2)
      | some quantity =>
        let delta := if trade.m then -quantity else quantity
        let bucketStart := alignToInterval t
        (maxTimestamp, fun k => if k = bucketStart then acc.2 k + delta else acc.2 k)

/-- The pagination loop with explicit fuel. -/
def fetchLoop (feed : ℤ → Option (List Trade)) (startTime endExclusive : ℤ) :
    ℕ → ℤ → (ℤ → ℚ) → ℕ → FetchOut
  | 0, cursor, deltas, fetches =>
    if cursor < endExclusive then FetchOut.outOfFuel else FetchOut.done deltas fetches
  | fuel + 1, cursor, deltas, fetches =>
    if cursor < endExclusive then
      match feed cursor with
      | none => FetchOut.done deltas (fetches + 1)
      | some trades =>
        if trades.length = 0 then FetchOut.done deltas (fetches + 1)
        else
          let processed := trades.foldl (processTrade startTime endExclusive) (cursor, deltas)
          if trades.length < MAX_TRADES_PER_REQUEST then
            fetchLoop feed startTime endExclusive fuel (processed.1 + 1) processed.2 (fetches + 1)
          else
            match trades.getLast? with
            | none => FetchOut.done processed.2 (fetches + 1)
            | some lastTrade =>
              match lastTrade.T with
              | none => FetchOut.done processed.2 (fetches + 1)
              | some lastTradeTimestamp =>
                fetchLoop feed startTime endExclusive fuel
                  (max (lastTradeTimestamp + 1) (cursor + 1)) processed.2 (fetches + 1)
    else
      FetchOut.done deltas fetches

/-- C7 (amended general clause): with exactly `1000` trades (the page cap) in
range on the first page and an empty second page, the loop performs exactly
two upstream fetches and terminates: the full first page moves the cursor to
just past the last trade's timestamp, and the empty second page breaks the
loop.  (In general the loop stops when the cursor passes the range end or a
page comes back empty/failed — a short non-empty page advances the cursor and
continues, see the counterexample.) -/
theorem pagination_two_fetches (feed : ℤ → Option (List Trade))
    (startTime endExclusive : ℤ) (page : List Trade) (lastTrade : Trade) (tN : ℤ)
    (h0 : startTime < endExclusive)
    (h1 : feed startTime = some page)
    (h2 : page.length = 1000)
    (h3 : page.getLast? = some lastTrade)
    (h4 : lastTrade.T = some tN)
    (h5 : startTime ≤ tN)
    (h6 : tN + 1 < endExclusive)
    (h7 : ∀ c, startTime < c → feed c = some []) :
    ∃ d, fetchLoop feed startTime endExclusive 2 startTime (fun _ => 0) 0
      = FetchOut.done d 2 := by
  have hlen0 : ¬ page.length = 0 := by omega
  have hlenfull : ¬ page.length < MAX_TRADES_PER_REQUEST := by
    rw [MAX_TRADES_PER_REQUEST]; omega
  have hcursor : max (tN + 1) (startTime + 1) = tN + 1 := max_eq_left (by omega)
  have hfeed2 : feed (tN + 1) = some [] := h7 (tN + 1) (by omega)
  simp only [fetchLoop, h0, h1, hlen0, hlenfull, h3, h4, hcursor, h6, hfeed2,
    if_true, if_false, ite_true, ite_false]
  exact ⟨_, rfl⟩

/-- Concrete full first page for the C7 witness: 999 trades at `t = 1`
followed by one at `t = 999`. -/
def c7page : List Trade :=
  List.replicate 999 ⟨some 1, some 1, false⟩ ++ [⟨some 999, some 1, false⟩]

/-- Concrete feed for the C7 witness: the full page at the range start, empty
pages afterwards. -/
def c7feed : ℤ → Option (List Trade) :=
  fun c => if c = 0 then some c7page else some []

/-- Witness for C7: range `[0, 2000)`, 1000 in-range trades on page one, page
two empty — exactly two fetches. -/
theorem pagination_two_fetches_witness :
    (0 : ℤ) < 2000 ∧
      (∃ d, fetchLoop c7feed 0 2000 2 0 (fun _ => 0) 0 = FetchOut.done d 2) := by
  refine ⟨by decide, ?_⟩
  exact pagination_two_fetches c7feed 0 2000 c7page ⟨some 999, some 1, false⟩ 999
    (by decide) (by simp [c7feed])
    (by rw [c7page, List.length_append, List.length_replicate]; rfl)
    (by rw [c7page, List.getLast?_concat])
    rfl (by decide) (by decide)
    (fun c hc => by simp only [c7feed]; rw [if_neg (by omega)])

/-- C7 counterexample: the claim's general clause says pagination stops when
"a page returns fewer than the page cap", but a short non-empty page does NOT
stop the loop: here the first page holds a single trade (1 < 1000), yet the
loop fetches again from past that trade's timestamp (3 fetches total, not 1). -/
theorem short_page_does_not_stop_pagination :
    ∃ d, fetchLoop
        (fun c => if c = 0 then some [⟨some 0, some 1, false⟩]
          else if c = 1 then some [⟨some 1, some 1, false⟩] else some [])
        0 10 5 0 (fun _ => 0) 0
      = FetchOut.done d 3 :=
  ⟨_, rfl⟩

/-! ### `fetchWithRetry` (auto-collect-cvd/index.ts lines 218-247)

Each attempt's outcome is an oracle value `AttemptRes`: `ok` (an `res.ok`
response), `httpStatus s` (a non-ok response with that status), or
`transient` (the `fetch` promise rejected — a transport error, or the
`AbortSignal.timeout(12000)` 12-second per-attempt abort; both land in the
same `catch` and are therefore retryable).  `Math.random()` jitter is the
oracle `jit` (the source's `Math.floor(Math.random() * 200)`, a natural
number `< 200`).  The model returns the final result together with the list
of backoff delays actually slept, in order.

A non-retryable status throws `Binance API error` inside the `try`, which the
`catch` immediately retries while `retries > 0`, so while retries remain every
failure retries; once `retries` hits `0` a bad status surfaces as
`FetchErr.apiError` and a rejection as `FetchErr.transportError` — the typed
"upstream unavailable" failures seen by the caller. -/

inductive AttemptRes where
  | ok
  | httpStatus (status : ℕ)
  | transient
deriving DecidableEq

inductive FetchErr where
  | apiError (status : ℕ)
  | transportError
deriving DecidableEq

/-- `status === 418 || status === 429 || status >= 500`. -/
def retryableStatus (status : ℕ) : Bool :=
  status = 418 || status = 429 || decide (500 ≤ status)

/-- `fetchWithRetry` with the default bound `retries = 3`, `baseDelay = 600`:
recursion over the remaining retry budget, `attempt` counting attempts so far.
The slept delay before the retry following attempt `a` is
`baseDelay * 2 ^ a + jitter`. -/
def fetchWithRetry (env : ℕ → AttemptRes) (jit : ℕ → ℕ) :
    ℕ → ℕ → Except FetchErr Unit × List ℕ
  | 0, attempt =>
    match env attempt with
    | AttemptRes.ok => (Except.ok (), [])
    | AttemptRes.httpStatus s => (Except.error (FetchErr.apiError s), [])
    | AttemptRes.transient => (Except.error FetchErr.transportError, [])
  | r + 1, attempt =>
    match env attempt with
    | AttemptRes.ok => (Except.ok (), [])
    | AttemptRes.httpStatus s =>
      if retryableStatus s then
        let next := fetchWithRetry env jit r (attempt + 1)
        (next.1, (600 * 2 ^ attempt + jit attempt) :: next.2)
      else
        -- `throw new Error(...)` caught by the catch block, which retries
        -- because retries > 0
        let next := fetchWithRetry env jit r (attempt + 1)
        (next.1, (600 * 2 ^ attempt + jit attempt) :: next.2)
    | AttemptRes.transient =>
      let next := fetchWithRetry env jit r (attempt + 1)
      (next.1, (600 * 2 ^ attempt + jit attempt) :: next.2)

/-- C8: for every environment and jitter oracle (jitter `< 200`): the number
of backoff sleeps is bounded by the retry budget; the `i`-th slept delay is
exactly `600 * 2 ^ (a + i) + jitter`, hence lies in
`[600 * 2 ^ (a + i), 600 * 2 ^ (a + i) + 200)`; a failing attempt with budget
left is retried (in particular a timeout, which arrives as `transient`, is
retryable); and when every attempt fails the budget is fully used (`r`
retries after the first attempt) and a typed failure is raised. -/
theorem fetchWithRetry_spec (env : ℕ → AttemptRes) (jit : ℕ → ℕ) (r a : ℕ)
    (hj : ∀ n, jit n < 200) :
    (fetchWithRetry env jit r a).2.length ≤ r ∧
    (∃ k, k ≤ r ∧ (fetchWithRetry env jit r a).2
      = (List.range k).map (fun i => 600 * 2 ^ (a + i) + jit (a + i))) ∧
    (∀ d ∈ (fetchWithRetry env jit r a).2,
      ∃ i, 600 * 2 ^ i ≤ d ∧ d < 600 * 2 ^ i + 200) ∧
    (env a ≠ AttemptRes.ok → 0 < r → 0 < (fetchWithRetry env jit r a).2.length) ∧
    ((∀ n, env n ≠ AttemptRes.ok) →
      (∃ e, (fetchWithRetry env jit r a).1 = Except.error e) ∧
        (fetchWithRetry env jit r a).2.length = r) := by
  induction r generalizing a with
  | zero =>
    refine ⟨?_, ?_, ?_, ?_, ?_⟩
    · rcases henv : env a with _ | s | _ <;> simp [fetchWithRetry, henv]
    · exact ⟨0, Nat.le_refl 0,
        by rcases henv : env a with _ | s | _ <;> simp [fetchWithRetry, henv]⟩
    · rcases henv : env a with _ | s | _ <;> simp [fetchWithRetry, henv]
    · intro _ h0
      exact absurd h0 (by omega)
    · intro hall
      rcases henv : env a with _ | s | _
      · exact absurd henv (hall a)
      · exact ⟨⟨FetchErr.apiError s, by rw [fetchWithRetry, henv]⟩,
          by rw [fetchWithRetry, henv]; rfl⟩
      · exact ⟨⟨FetchErr.transportError, by rw [fetchWithRetry, henv]⟩,
          by rw [fetchWithRetry, henv]; rfl⟩
  | succ r ih =>
    by_cases henv : env a = AttemptRes.ok
    · have hok : fetchWithRetry env jit (r + 1) a = (Except.ok (), []) := by
        rw [fetchWithRetry, henv]
      refine ⟨?_, ?_, ?_, ?_, ?_⟩
      · rw [hok]; simp
      · exact ⟨0, by omega, by rw [hok]; simp⟩
      · rw [hok]; simp
      · intro hne
        exact absurd henv hne
      · intro hall
        exact absurd henv (hall a)
    · have step : fetchWithRetry env jit (r + 1) a
          = ((fetchWithRetry env jit r (a + 1)).1,
             (600 * 2 ^ a + jit a) :: (fetchWithRetry env jit r (a + 1)).2) := by
        rcases hv : env a with _ | s | _
        · exact absurd hv henv
        · rw [fetchWithRetry, hv]
          rcases hs : retryableStatus s <;> simp [hs]
        · rw [fetchWithRetry, hv]
      obtain ⟨ihlen, ⟨k, hk, heq⟩, ihmem, _, ihfail⟩ := ih (a + 1)
      rw [step]
      refine ⟨?_, ?_, ?_, ?_, ?_⟩
      · simpa using Nat.add_le_add_right ihlen 1
      · refine ⟨k + 1, by omega, ?_⟩
        rw [List.range_succ_eq_map, List.map_cons, List.map_map]
        refine congrArg₂ _ (by simp) ?_
        rw [heq]
        refine List.map_congr_left fun i hi => ?_
        have harith : a + 1 + i = a + (i + 1) := by omega
        simp [Function.comp, harith]
      · intro d hd
        rcases List.mem_cons.mp hd with h | h
        · exact ⟨a, by rw [h]; simp, by rw [h]; have := hj a; omega⟩
        · exact ihmem d h
      · intro _ _
        exact Nat.succ_pos _
      · intro hall
        obtain ⟨⟨e, he'⟩, hlen⟩ := ihfail hall
        exact ⟨⟨e, by simpa using he'⟩, by simpa using hlen⟩

/-- Witness for C8: every attempt answers HTTP 503 with zero jitter; the
default budget of 3 retries is exhausted with delays
`[600, 1200, 2400]` and a typed failure is raised. -/
theorem fetchWithRetry_spec_witness :
    (∀ n : ℕ, (fun _ : ℕ => 0) n < 200) ∧
      ((fetchWithRetry (fun _ => AttemptRes.httpStatus 503) (fun _ => 0) 3 0).2.length = 3 ∧
        ∃ e, (fetchWithRetry (fun _ => AttemptRes.httpStatus 503) (fun _ => 0) 3 0).1
          = Except.error e) := by
  have h := fetchWithRetry_spec (fun _ => AttemptRes.httpStatus 503) (fun _ => 0) 3 0
    (fun n => by show (0 : ℕ) < 200; decide)
  have hfail := h.2.2.2.2
    (fun n => by show AttemptRes.httpStatus 503 ≠ AttemptRes.ok; decide)
  exact ⟨fun n => by show (0 : ℕ) < 200; decide, hfail.2, hfail.1⟩

/-! ### Whale-signal detection (src/utils/whaleDetection.ts)

`OIData` carries `symbol`/`timestamp`/`sumOpenInterest` too, but the detector
reads only `sumOpenInterestValue`; the embedding keeps the fields it touches.
The human-readable `description` string of `WhaleSignal` is display-only
formatting (`toFixed`) and is omitted.  ℚ division-by-zero yields `0` in
Lean; the detector's divisors are open-interest notionals, which the trigger
conditions (`≥ 20` / `≤ -15` growth and the `oiValueInMillions ≥ 0.3` floor)
keep away from the degenerate case in every reachable match. -/

structure OIData where
  timestamp : ℤ
  sumOpenInterest : ℚ
  sumOpenInterestValue : ℚ
deriving DecidableEq

inductive WhaleSignalType where
  | WHALE_BUY
  | WHALE_SELL
  | WASH_TRADING
deriving DecidableEq

structure WhaleSignal where
  type : WhaleSignalType
  confidence : ℚ
  oiChange : ℚ
  priceChange : ℚ
  oiVolumeRatio : ℚ
deriving DecidableEq

inductive SignalKind where
  | buy
  | sell
  | wash
deriving DecidableEq

/-- `calculateConfidence` (whaleDetection.ts lines 98-126): base 50 (70 for
wash) plus threshold-overshoot bonuses, clamped into `[0, 100]` by the final
`Math.min(Math.max(confidence, 0), 100)`. -/
def calculateConfidence (oiChange priceChange oiVR : ℚ)
    (signalType : SignalKind) : ℚ :=
  let confidence : ℚ :=
    match signalType with
    | SignalKind.buy =>
      50 + min (qabs oiChange - 20) 30 + max (10 - qabs priceChange * 5) 0 +
        min ((oiVR - 1 / 4) * 20) 10
    | SignalKind.sell =>
      50 + min (qabs oiChange - 15) 25 + min (qabs oiChange - qabs priceChange) 15
    | SignalKind.wash =>
      70 + min (qabs oiChange / 2) 15
  min (max confidence 0) 100

/-- `detectWhaleSignal` (whaleDetection.ts lines 10-93).  `oiHistory` is
newest-first; needs at least 2 points, and 3 for the wash-pattern rule. -/
def detectWhaleSignal (oiHistory : List OIData) (priceChange5m volume24h : ℚ) :
    Option WhaleSignal :=
  match oiHistory with
  | latest :: prev5m :: rest =>
    let oiChange5m :=
      ((latest.sumOpenInterestValue - prev5m.sumOpenInterestValue) /
        prev5m.sumOpenInterestValue) * 100
    let oiValueInMillions := latest.sumOpenInterestValue / 1000000
    let oiDelta := qabs (latest.sumOpenInterestValue - prev5m.sumOpenInterestValue)
    let oiVR := if 0 < volume24h then oiDelta / volume24h else 0
    if 20 ≤ oiChange5m ∧ qabs priceChange5m ≤ 3 / 2 ∧ 1 / 4 ≤ oiVR ∧
        3 / 10 ≤ oiValueInMillions then
      some ⟨WhaleSignalType.WHALE_BUY,
        calculateConfidence oiChange5m priceChange5m oiVR SignalKind.buy,
        oiChange5m, priceChange5m, oiVR⟩
    else if oiChange5m ≤ -15 ∧ oiChange5m / 2 < priceChange5m ∧
        3 / 10 ≤ oiValueInMillions then
      some ⟨WhaleSignalType.WHALE_SELL,
        calculateConfidence oiChange5m priceChange5m oiVR SignalKind.sell,
        oiChange5m, priceChange5m, oiVR⟩
    else
      match rest with
      | prev10m :: _ =>
        let oiChange10m :=
          ((latest.sumOpenInterestValue - prev10m.sumOpenInterestValue) /
            prev10m.sumOpenInterestValue) * 100
        let midPoint := prev5m
        let oiChangeFirst5m :=
          ((midPoint.sumOpenInterestValue - prev10m.sumOpenInterestValue) /
            prev10m.sumOpenInterestValue) * 100
        let oiChangeSecond5m :=
          ((latest.sumOpenInterestValue - midPoint.sumOpenInterestValue) /
            midPoint.sumOpenInterestValue) * 100
        if 20 ≤ oiChangeFirst5m ∧ oiChangeSecond5m ≤ -15 ∧ qabs oiChange10m ≤ 3 ∧
            qabs priceChange5m ≤ 2 ∧ 3 / 10 ≤ oiValueInMillions then
          some ⟨WhaleSignalType.WASH_TRADING,
            calculateConfidence oiChangeFirst5m priceChange5m oiVR SignalKind.wash,
            oiChange5m, priceChange5m, oiVR⟩
        else none
      | [] => none
  | _ => none

theorem calculateConfidence_range (oiChange priceChange oiVR : ℚ)
    (signalType : SignalKind) :
    0 ≤ calculateConfidence oiChange priceChange oiVR signalType ∧
      calculateConfidence oiChange priceChange oiVR signalType ≤ 100 := by
  unfold calculateConfidence
  constructor
  · exact le_min (le_max_right _ _) (by norm_num)
  · exact min_le_right _ _

set_option maxHeartbeats 1000000 in
/-- C9: whenever the whale detector matches a pattern, the returned
confidence — base score plus threshold-overshoot bonuses, clamped — lies in
`[0, 100]`, for all inputs satisfying the trigger conditions. -/
theorem detectWhaleSignal_confidence_range (oiHistory : List OIData)
    (priceChange5m volume24h : ℚ) (s : WhaleSignal)
    (h : detectWhaleSignal oiHistory priceChange5m volume24h = some s) :
    0 ≤ s.confidence ∧ s.confidence ≤ 100 := by
  rcases oiHistory with _ | ⟨latest, _ | ⟨prev5m, rest⟩⟩
  · simp [detectWhaleSignal] at h
  · simp [detectWhaleSignal] at h
  · simp only [detectWhaleSignal] at h
    repeat' split at h
    all_goals
      try exact Option.noConfusion h
    all_goals
      injection h with h2
    all_goals
      subst h2
    all_goals
      exact ⟨le_min (le_max_right _ _) (by norm_num), min_le_right _ _⟩

/-- Witness for C9: OI notional jumps from 500000 to 600000 (+20%) with flat
price and `ΔOI/volume = 0.25`: a `WHALE_BUY` match of confidence 60. -/
theorem detectWhaleSignal_confidence_range_witness :
    detectWhaleSignal [⟨300000, 60, 600000⟩, ⟨0, 50, 500000⟩] 0 400000
        = some ⟨WhaleSignalType.WHALE_BUY, 60, 20, 0, 1 / 4⟩ ∧
      (0 : ℚ) ≤ 60 ∧ (60 : ℚ) ≤ 100 := by
  have h : detectWhaleSignal [⟨300000, 60, 600000⟩, ⟨0, 50, 500000⟩] 0 400000
      = some ⟨WhaleSignalType.WHALE_BUY, 60, 20, 0, 1 / 4⟩ := by
    norm_num [detectWhaleSignal, calculateConfidence, qabs]
  exact ⟨h, detectWhaleSignal_confidence_range _ _ _ _ h⟩

/-! ### The CVD-history read endpoint (get-cvd-history/index.ts)

```js
const { symbol, limit = 1440 } = await req.json();
const requestedLimit = typeof limit === 'number' ? limit : 1440;
const safeLimit = Math.min(Math.max(1, requestedLimit), MAX_LIMIT);
... .order('timestamp', { ascending: false }).limit(safeLimit);
const serialized = [...rows].reverse().map(...);
```
The request's `limit` field is `Option ℤ` (`none` = absent or non-numeric).
The database query is modelled as sorting the symbol's rows descending by
timestamp and taking `safeLimit` of them. -/

structure CvdRow where
  timestamp : ℤ
  cvd : ℚ
  price : ℚ
  open_interest : Option ℚ
  open_interest_value : Option ℚ
deriving DecidableEq

structure CvdPoint where
  timestamp : ℤ
  cvd : ℚ
  price : ℚ
  openInterest : Option ℚ
  openInterestValue : Option ℚ
deriving DecidableEq

/-- `Math.min(Math.max(1, requestedLimit), MAX_LIMIT)` with the non-numeric
default `1440`. -/
def boundedLimit (limit : Option ℤ) : ℤ :=
  min (max 1 (limit.getD 1440)) MAX_LIMIT

/-- The descending `order('timestamp', { ascending: false })` relation. -/
def rowGe (a b : CvdRow) : Prop :=
  b.timestamp ≤ a.timestamp

instance : DecidableRel rowGe :=
  fun a b => inferInstanceAs (Decidable (b.timestamp ≤ a.timestamp))

instance : IsTotal CvdRow rowGe :=
  ⟨fun a b => le_total b.timestamp a.timestamp⟩

instance : IsTrans CvdRow rowGe :=
  ⟨fun _ _ _ hab hbc => le_trans hbc hab⟩

/-- The `reverse().map(...)` serialization to response points. -/
def serializeRows (rows : List CvdRow) : List CvdPoint :=
  rows.reverse.map fun item =>
    ⟨item.timestamp, item.cvd, item.price, item.open_interest, item.open_interest_value⟩

/-- The whole read path: clamp the limit, fetch the newest `safeLimit` rows
descending, reverse into ascending order. -/
def getCvdHistory (store : List CvdRow) (limit : Option ℤ) : List CvdPoint :=
  let safeLimit := boundedLimit limit
  serializeRows ((List.insertionSort rowGe store).take safeLimit.toNat)

/-- C10: the requested limit is clamped into `[1, 3000]` (`1440` when
non-numeric), the response never exceeds `3000` rows, and the returned series
is ascending by timestamp (newest rows fetched descending, reversed in
memory). -/
theorem cvd_history_bounded_and_sorted (store : List CvdRow) (limit : Option ℤ) :
    (getCvdHistory store limit).length ≤ 3000 ∧
    List.Pairwise (fun a b : CvdPoint => a.timestamp ≤ b.timestamp)
      (getCvdHistory store limit) ∧
    boundedLimit none = 1440 ∧
    (∀ n : ℤ, 1 ≤ boundedLimit (some n) ∧ boundedLimit (some n) ≤ 3000) := by
  refine ⟨?_, ?_, ?_, ?_⟩
  · have hb : (boundedLimit limit).toNat ≤ 3000 := by
      unfold boundedLimit MAX_LIMIT
      omega
    calc (getCvdHistory store limit).length
        ≤ (boundedLimit limit).toNat := by
          unfold getCvdHistory serializeRows
          simp [List.length_take]
      _ ≤ 3000 := hb
  · unfold getCvdHistory serializeRows
    rw [List.pairwise_map]
    rw [List.pairwise_reverse]
    have hsorted : List.Pairwise rowGe (List.insertionSort rowGe store) :=
      List.sorted_insertionSort rowGe store
    have htake : List.Pairwise rowGe
        ((List.insertionSort rowGe store).take (boundedLimit limit).toNat) :=
      hsorted.sublist (List.take_sublist _ _)
    exact htake.imp fun h => h
  · rfl
  · intro n
    unfold boundedLimit MAX_LIMIT
    constructor <;> omega

end OiPulse
